import Mathlib

/-!
Vax: the Vault-backed AWS credentials provider.

A shallow embedding of `vax.go` (package `vax`) and the properties of its
three functions `NewVaultProvider`, `Retrieve` and `IsExpired`.

Modelling conventions.

* An instant (`time.Time`) is a number of nanoseconds on one unbounded
  timeline; the wall-clock and monotonic readings of Go's `time.Time` are
  taken to agree, and the clock reading `time.Now()` of each call is an
  explicit argument `now`.
* A `time.Duration` is a signed 64-bit count of nanoseconds; arithmetic on
  durations that the program performs at run time wraps around modulo `2^64`
  as Go's `int64` arithmetic does. Go's `int` is taken to be 64 bits wide.
* The call `vp.VaultClient.Logical().Write(path, args)` is an oracle stored in
  the client handle: it yields the pair `(*Secret, error)` of that call.
* A Go function call either returns or panics; a panic is an explicit outcome,
  and the provider state reached when the panic is raised is kept.
-/

namespace Vax

/-! Section: Time -/

/-- Go's `time.Duration`: nanoseconds, a signed 64-bit integer. -/
abbrev Duration := Int

/-- Two's-complement reduction to the signed 64-bit range
`[-2^63, 2^63)`: the value an `int64` holds after an arithmetic result `x`. -/
def wrapInt64 (x : Int) : Int := (x + 2 ^ 63) % 2 ^ 64 - 2 ^ 63

/-- The constant `time.Second`. -/
def Second : Duration := 1000000000

/-- The conversion `time.Duration(n)` of an `int` value. -/
def durationOfInt (n : Int) : Duration := wrapInt64 n

/-- The run-time product `d * e` of two durations, in `int64` arithmetic. -/
def mulDuration (d e : Duration) : Duration := wrapInt64 (d * e)

/-- An instant: Go's `time.Time`, as nanoseconds on one timeline. -/
structure Time where
  nanos : Int
deriving DecidableEq, Repr

/-- The method `t.Add(d)`. -/
def Time.Add (t : Time) (d : Duration) : Time := ⟨t.nanos + d⟩

/-- The method `t.After(u)`: whether `t` is strictly later than `u`. -/
def Time.After (t u : Time) : Bool := decide (u.nanos < t.nanos)

/-! Section: Values exchanged with the secret service -/

/-- A value of Go's `interface{}` as found in a decoded response: the nil
interface, a `string`, or a value of another dynamic type. -/
inductive Iface where
  | nil
  | str (s : String)
  | num (n : Int)
  | bool (b : Bool)
  | composite
deriving DecidableEq, Repr

/-- Go's `map[string]interface{}`; the nil map is the empty list. -/
abbrev DataMap := List (String × Iface)

/-- The index expression `m[k]`: the nil interface when `k` is not a key. -/
def mapIndex (m : DataMap) (k : String) : Iface := (m.lookup k).getD Iface.nil

/-- The fields of `vault.Secret` that the provider reads. -/
structure Secret where
  LeaseDuration : Int
  Data : DataMap
deriving DecidableEq, Repr

/-- A non-nil value of Go's `error` interface. -/
structure GoError where
  msg : String
deriving DecidableEq, Repr

/-- The result pair `(*Secret, error)` of `Logical().Write`; `none` is nil. -/
abbrev WriteResult := Option Secret × Option GoError

/-- The `vault.Client` handle, as the oracle answering
`Logical().Write(path, args)`. -/
structure Client where
  Write : String → DataMap → WriteResult

/-- The AWS SDK's `credentials.Value`. -/
structure Value where
  AccessKeyID : String
  SecretAccessKey : String
  SessionToken : String
  ProviderName : String
deriving DecidableEq, Repr

/-! Section: The provider -/

/-- The `VaultProvider` struct. -/
structure VaultProvider where
  StsCredsPath : String
  TTL : String
  VaultClient : Client
  expiresAt : Time

/-- A run-time panic of the Go program. -/
inductive Panic where
  | nilDereference
  | interfaceConversion (dynamic : Iface)
deriving DecidableEq, Repr

/-- How a call of `Retrieve` ends: it returns `(credentials.Value, error)`
or it panics. -/
inductive Outcome where
  | returned (rv : Value) (err : Option GoError)
  | panicked (p : Panic)
deriving DecidableEq, Repr

/-- The unchecked type assertion `x.(string)`: it panics unless the dynamic
type of `x` is `string`. -/
def assertString : Iface → Except Panic String
  | Iface.str s => Except.ok s
  | x => Except.error (Panic.interfaceConversion x)

/-- The constructor `NewVaultProvider(enginePath, roleName)`; `client` is the
handle obtained from `vault.NewClient(nil)` and `now` the reading of
`time.Now()`. -/
def NewVaultProvider (client : Client) (now : Time) (enginePath roleName : String) :
    VaultProvider :=
  { StsCredsPath := enginePath ++ "/sts/" ++ roleName
    TTL := "30m"
    VaultClient := client
    expiresAt := now }

/-- The method `Retrieve`, called when the clock reads `now`: the outcome of
the call and the provider state it leaves behind. -/
def Retrieve (vp : VaultProvider) (now : Time) : Outcome × VaultProvider :=
  let rv : Value :=
    { AccessKeyID := "", SecretAccessKey := "", SessionToken := "", ProviderName := "Vax" }
  let args : DataMap := [("ttl", Iface.str vp.TTL)]
  match vp.VaultClient.Write vp.StsCredsPath args with
  | (_, some err) => (Outcome.returned rv (some err), vp)
  | (none, none) => (Outcome.panicked Panic.nilDereference, vp)
  | (some resp, none) =>
    let vp1 : VaultProvider :=
      { vp with
        expiresAt := now.Add (mulDuration (durationOfInt resp.LeaseDuration) Second) }
    match assertString (mapIndex resp.Data "access_key") with
    | Except.error p => (Outcome.panicked p, vp1)
    | Except.ok ak =>
      match assertString (mapIndex resp.Data "secret_key") with
      | Except.error p => (Outcome.panicked p, vp1)
      | Except.ok sk =>
        match assertString (mapIndex resp.Data "security_token") with
        | Except.error p => (Outcome.panicked p, vp1)
        | Except.ok tok =>
          (Outcome.returned
            { rv with AccessKeyID := ak, SecretAccessKey := sk, SessionToken := tok } none,
           vp1)

/-- The method `IsExpired`, called when the clock reads `now`. -/
def IsExpired (vp : VaultProvider) (now : Time) : Bool :=
  now.After (vp.expiresAt.Add (-10 * Second))

/-! Section: Concrete inputs used in the examples -/

/-- A client whose every write call yields `r`. -/
def fixedClient (r : WriteResult) : Client := ⟨fun _ _ => r⟩

/-- A provider built by hand around `fixedClient r`, with the given expiry. -/
def sampleProvider (r : WriteResult) (expiry : Int) : VaultProvider :=
  { StsCredsPath := "aws/sts/deploy"
    TTL := "30m"
    VaultClient := fixedClient r
    expiresAt := ⟨expiry⟩ }

/-- The response `{lease_duration: l, data: {access_key: "AK",
secret_key: "SK", security_token: "TOK"}}`. -/
def fullSecret (l : Int) : Secret :=
  { LeaseDuration := l
    Data := [("access_key", Iface.str "AK"), ("secret_key", Iface.str "SK"),
             ("security_token", Iface.str "TOK")] }

/-- The response `{lease_duration: 1800, data: {access_key: "AK",
secret_key: "SK"}}`: the `security_token` field is absent. -/
def secretMissingToken : Secret :=
  { LeaseDuration := 1800
    Data := [("access_key", Iface.str "AK"), ("secret_key", Iface.str "SK")] }

/-- The response `{lease_duration: 1800, data: {access_key: 42,
secret_key: "SK", security_token: "TOK"}}`: `access_key` is not a string. -/
def secretNumericKey : Secret :=
  { LeaseDuration := 1800
    Data := [("access_key", Iface.num 42), ("secret_key", Iface.str "SK"),
             ("security_token", Iface.str "TOK")] }

/-! Section: Auxiliary facts -/

theorem wrapInt64_of_range (x : Int) (hlo : -9223372036854775808 ≤ x)
    (hhi : x ≤ 9223372036854775807) : wrapInt64 x = x := by
  unfold wrapInt64
  norm_num
  omega

theorem leaseNanos_of_range (l : Int) (hlo : -9223372036 ≤ l) (hhi : l ≤ 9223372036) :
    mulDuration (durationOfInt l) Second = l * 1000000000 := by
  unfold mulDuration durationOfInt Second
  rw [wrapInt64_of_range l (by omega) (by omega)]
  exact wrapInt64_of_range _ (by omega) (by omega)

theorem IsExpired_iff (vp : VaultProvider) (now : Time) :
    IsExpired vp now = true ↔ vp.expiresAt.nanos - 10000000000 < now.nanos := by
  unfold IsExpired Time.After Time.Add Second
  simp only [decide_eq_true_eq]
  constructor <;> intro h <;> omega

theorem Retrieve_of_error (vp : VaultProvider) (now : Time) (resp : Option Secret)
    (e : GoError)
    (hw : vp.VaultClient.Write vp.StsCredsPath [("ttl", Iface.str vp.TTL)] = (resp, some e)) :
    Retrieve vp now =
      (Outcome.returned
        { AccessKeyID := "", SecretAccessKey := "", SessionToken := "", ProviderName := "Vax" }
        (some e), vp) := by
  unfold Retrieve
  simp only [hw]

theorem Retrieve_expiresAt_of_response (vp : VaultProvider) (now : Time) (resp : Secret)
    (hw : vp.VaultClient.Write vp.StsCredsPath [("ttl", Iface.str vp.TTL)] = (some resp, none)) :
    (Retrieve vp now).2.expiresAt =
      now.Add (mulDuration (durationOfInt resp.LeaseDuration) Second) := by
  unfold Retrieve
  simp only [hw]
  cases assertString (mapIndex resp.Data "access_key") <;>
  cases assertString (mapIndex resp.Data "secret_key") <;>
  cases assertString (mapIndex resp.Data "security_token") <;> rfl

theorem Retrieve_of_fields (vp : VaultProvider) (now : Time) (resp : Secret)
    (ak sk tok : String)
    (hw : vp.VaultClient.Write vp.StsCredsPath [("ttl", Iface.str vp.TTL)] = (some resp, none))
    (hak : mapIndex resp.Data "access_key" = Iface.str ak)
    (hsk : mapIndex resp.Data "secret_key" = Iface.str sk)
    (htok : mapIndex resp.Data "security_token" = Iface.str tok) :
    (Retrieve vp now).1 =
      Outcome.returned
        { AccessKeyID := ak, SecretAccessKey := sk, SessionToken := tok, ProviderName := "Vax" }
        none := by
  unfold Retrieve
  simp only [hw, hak, hsk, htok, assertString]

theorem IsExpired_eq_false_iff (vp : VaultProvider) (now : Time) :
    IsExpired vp now = false ↔ now.nanos ≤ vp.expiresAt.nanos - 10000000000 := by
  unfold IsExpired Time.After Time.Add Second
  simp only [decide_eq_false_iff_not]
  constructor <;> intro h <;> omega

theorem Retrieve_expiresAt_of_lease (vp : VaultProvider) (now : Time) (resp : Secret)
    (hw : vp.VaultClient.Write vp.StsCredsPath [("ttl", Iface.str vp.TTL)] = (some resp, none))
    (hlo : -9223372036 ≤ resp.LeaseDuration) (hhi : resp.LeaseDuration ≤ 9223372036) :
    (Retrieve vp now).2.expiresAt = ⟨now.nanos + resp.LeaseDuration * 1000000000⟩ := by
  rw [Retrieve_expiresAt_of_response vp now resp hw, leaseNanos_of_range _ hlo hhi]
  rfl

/-! Section: C1: the freshness check -/

/-- Claim C1, as stated, fails: with `expiresAt` at 20 s and the clock reading
exactly `expiresAt - 10s` (10 s), `now >= expiresAt - 10s` holds and yet
`IsExpired` returns false. -/
theorem C1_counterexample :
    (sampleProvider (none, none) 20000000000).expiresAt.nanos - 10 * Second ≤ 10000000000 ∧
      IsExpired (sampleProvider (none, none) 20000000000) ⟨10000000000⟩ = false := by
  decide

/-- Claim C1 (amended): for every provider state and every clock reading
`now`, `IsExpired` returns true if and only if `now` is strictly after
`expiresAt` minus 10 seconds; at exactly `expiresAt - 10s` it returns false. -/
theorem C1_IsExpired_iff_strictly_after (vp : VaultProvider) (now : Time) :
    (IsExpired vp now = true ↔ vp.expiresAt.nanos - 10 * Second < now.nanos) ∧
      IsExpired vp ⟨vp.expiresAt.nanos - 10 * Second⟩ = false := by
  constructor
  · rw [IsExpired_iff]
    simp only [Second]
    constructor <;> intro h <;> omega
  · rw [IsExpired_eq_false_iff]
    simp only [Second]
    omega

/-! Section: C2: a failed write call -/

/-- Claim C2: if the write call made by `Retrieve` returns an error `e`, then
`Retrieve` returns that same `e`, together with a credential value that
carries no access key, no secret key and no session token, and `expiresAt`
after the call equals `expiresAt` before it. -/
theorem C2_write_error_propagated (vp : VaultProvider) (now : Time) (resp : Option Secret)
    (e : GoError)
    (hw : vp.VaultClient.Write vp.StsCredsPath [("ttl", Iface.str vp.TTL)] = (resp, some e)) :
    (Retrieve vp now).1 =
        Outcome.returned
          { AccessKeyID := "", SecretAccessKey := "", SessionToken := "", ProviderName := "Vax" }
          (some e) ∧
      (Retrieve vp now).2.expiresAt = vp.expiresAt := by
  rw [Retrieve_of_error vp now resp e hw]
  exact ⟨rfl, rfl⟩

/-- Instance of C2: the write call fails with "permission denied" while
`expiresAt` is 7 ns; the clock reads 5 ns. -/
theorem C2_write_error_propagated_witness :
    (sampleProvider (none, some ⟨"permission denied"⟩) 7).VaultClient.Write
        (sampleProvider (none, some ⟨"permission denied"⟩) 7).StsCredsPath
        [("ttl", Iface.str (sampleProvider (none, some ⟨"permission denied"⟩) 7).TTL)] =
        (none, some ⟨"permission denied"⟩) ∧
      (Retrieve (sampleProvider (none, some ⟨"permission denied"⟩) 7) ⟨5⟩).1 =
        Outcome.returned
          { AccessKeyID := "", SecretAccessKey := "", SessionToken := "", ProviderName := "Vax" }
          (some ⟨"permission denied"⟩) ∧
      (Retrieve (sampleProvider (none, some ⟨"permission denied"⟩) 7) ⟨5⟩).2.expiresAt =
        (sampleProvider (none, some ⟨"permission denied"⟩) 7).expiresAt :=
  ⟨rfl, C2_write_error_propagated (sampleProvider (none, some ⟨"permission denied"⟩) 7) ⟨5⟩
    none ⟨"permission denied"⟩ rfl⟩

/-! Section: C3: the happy path -/

/-- Claim C3, as stated, fails: a lease duration of 9223372037 seconds does
not fit a `time.Duration`; `Retrieve` at clock reading 5 ns returns the three
values without error, and `expiresAt` becomes an instant before `now`, not
`now + 9223372037 s`. -/
theorem C3_counterexample :
    (Retrieve (sampleProvider (some (fullSecret 9223372037), none) 0) ⟨5⟩).1 =
        Outcome.returned
          { AccessKeyID := "AK", SecretAccessKey := "SK", SessionToken := "TOK",
            ProviderName := "Vax" } none ∧
      (Retrieve (sampleProvider (some (fullSecret 9223372037), none) 0) ⟨5⟩).2.expiresAt =
        ⟨-9223372036709551611⟩ ∧
      (Retrieve (sampleProvider (some (fullSecret 9223372037), none) 0) ⟨5⟩).2.expiresAt ≠
        ⟨5 + 9223372037 * Second⟩ := by
  decide

/-- Claim C3 (amended): for every lease duration `L` with
`-9223372036 <= L <= 9223372036` seconds and every three strings, if the write
succeeds with a response of lease duration `L` whose data map holds them under
`access_key`, `secret_key`, `security_token`, then `Retrieve` at clock reading
`now` returns no error and a credential value with exactly these three
strings and the provider name "Vax", and `expiresAt` becomes `now + L`
seconds. -/
theorem C3_retrieve_roundtrip (vp : VaultProvider) (now : Time) (resp : Secret)
    (ak sk tok : String)
    (hw : vp.VaultClient.Write vp.StsCredsPath [("ttl", Iface.str vp.TTL)] = (some resp, none))
    (hak : mapIndex resp.Data "access_key" = Iface.str ak)
    (hsk : mapIndex resp.Data "secret_key" = Iface.str sk)
    (htok : mapIndex resp.Data "security_token" = Iface.str tok)
    (hlo : -9223372036 ≤ resp.LeaseDuration) (hhi : resp.LeaseDuration ≤ 9223372036) :
    (Retrieve vp now).1 =
        Outcome.returned
          { AccessKeyID := ak, SecretAccessKey := sk, SessionToken := tok,
            ProviderName := "Vax" } none ∧
      (Retrieve vp now).2.expiresAt = ⟨now.nanos + resp.LeaseDuration * Second⟩ := by
  refine ⟨Retrieve_of_fields vp now resp ak sk tok hw hak hsk htok, ?_⟩
  rw [Retrieve_expiresAt_of_lease vp now resp hw hlo hhi]
  rfl

/-- Instance of C3: lease duration 1800 with "AK", "SK", "TOK", the clock
reading 5 ns. -/
theorem C3_retrieve_roundtrip_witness :
    (Retrieve (sampleProvider (some (fullSecret 1800), none) 0) ⟨5⟩).1 =
        Outcome.returned
          { AccessKeyID := "AK", SecretAccessKey := "SK", SessionToken := "TOK",
            ProviderName := "Vax" } none ∧
      (Retrieve (sampleProvider (some (fullSecret 1800), none) 0) ⟨5⟩).2.expiresAt =
        ⟨5 + (fullSecret 1800).LeaseDuration * Second⟩ :=
  C3_retrieve_roundtrip (sampleProvider (some (fullSecret 1800), none) 0) ⟨5⟩ (fullSecret 1800)
    "AK" "SK" "TOK" rfl rfl rfl rfl (by decide) (by decide)

/-! Section: C4: a malformed payload -/

/-- Claim C4 at a response that lacks `security_token`: `Retrieve` (provider
expiry 0, clock reading 5 ns, lease 1800 s) does not return an error value, it
panics in the type assertion on the missing field, and `expiresAt` has by then
been moved to `now + 1800 s`. -/
theorem C4_missing_token_panics :
    (Retrieve (sampleProvider (some secretMissingToken, none) 0) ⟨5⟩).1 =
        Outcome.panicked (Panic.interfaceConversion Iface.nil) ∧
      (Retrieve (sampleProvider (some secretMissingToken, none) 0) ⟨5⟩).2.expiresAt =
        ⟨5 + 1800 * Second⟩ ∧
      (Retrieve (sampleProvider (some secretMissingToken, none) 0) ⟨5⟩).2.expiresAt ≠
        (sampleProvider (some secretMissingToken, none) 0).expiresAt := by
  decide

/-! Section: C5: the 10-second margin after a refresh -/

/-- Claim C5, as stated, fails: a granted lease of 9223372037 seconds exceeds
10, `Retrieve` at clock reading 5 ns succeeds, and `IsExpired` at that same
reading returns true. -/
theorem C5_counterexample :
    (10 : Int) < (fullSecret 9223372037).LeaseDuration ∧
      (Retrieve (sampleProvider (some (fullSecret 9223372037), none) 0) ⟨5⟩).1 =
        Outcome.returned
          { AccessKeyID := "AK", SecretAccessKey := "SK", SessionToken := "TOK",
            ProviderName := "Vax" } none ∧
      IsExpired (Retrieve (sampleProvider (some (fullSecret 9223372037), none) 0) ⟨5⟩).2 ⟨5⟩ =
        true := by
  decide

/-- Claim C5 (amended): for every successful `Retrieve` at clock reading `t`
that grants a lease of `L` seconds with `10 < L <= 9223372036`, `expiresAt`
is `t + L` seconds, `IsExpired` at `t` returns false, `IsExpired` at exactly
`expiresAt - 11s` returns false, and `IsExpired` at exactly `expiresAt - 9s`
returns true. -/
theorem C5_margin_after_retrieve (vp : VaultProvider) (t : Time) (resp : Secret) (rv : Value)
    (hw : vp.VaultClient.Write vp.StsCredsPath [("ttl", Iface.str vp.TTL)] = (some resp, none))
    (_hok : (Retrieve vp t).1 = Outcome.returned rv none)
    (h10 : 10 < resp.LeaseDuration) (hhi : resp.LeaseDuration ≤ 9223372036) :
    (Retrieve vp t).2.expiresAt = ⟨t.nanos + resp.LeaseDuration * Second⟩ ∧
      IsExpired (Retrieve vp t).2 t = false ∧
      IsExpired (Retrieve vp t).2 ⟨(Retrieve vp t).2.expiresAt.nanos - 11 * Second⟩ = false ∧
      IsExpired (Retrieve vp t).2 ⟨(Retrieve vp t).2.expiresAt.nanos - 9 * Second⟩ = true := by
  have he := Retrieve_expiresAt_of_lease vp t resp hw (by omega) hhi
  refine ⟨by rw [he]; rfl, ?_, ?_, ?_⟩
  · rw [IsExpired_eq_false_iff, he]
    show t.nanos ≤ t.nanos + resp.LeaseDuration * 1000000000 - 10000000000
    omega
  · rw [IsExpired_eq_false_iff]
    simp only [Second]
    omega
  · rw [IsExpired_iff]
    simp only [Second]
    omega

/-- Instance of C5: lease duration 1800 s granted at clock reading 5 ns. -/
theorem C5_margin_after_retrieve_witness :
    (Retrieve (sampleProvider (some (fullSecret 1800), none) 0) ⟨5⟩).2.expiresAt =
        ⟨5 + (fullSecret 1800).LeaseDuration * Second⟩ ∧
      IsExpired (Retrieve (sampleProvider (some (fullSecret 1800), none) 0) ⟨5⟩).2 ⟨5⟩ = false ∧
      IsExpired (Retrieve (sampleProvider (some (fullSecret 1800), none) 0) ⟨5⟩).2
        ⟨(Retrieve (sampleProvider (some (fullSecret 1800), none) 0) ⟨5⟩).2.expiresAt.nanos -
          11 * Second⟩ = false ∧
      IsExpired (Retrieve (sampleProvider (some (fullSecret 1800), none) 0) ⟨5⟩).2
        ⟨(Retrieve (sampleProvider (some (fullSecret 1800), none) 0) ⟨5⟩).2.expiresAt.nanos -
          9 * Second⟩ = true :=
  C5_margin_after_retrieve (sampleProvider (some (fullSecret 1800), none) 0) ⟨5⟩
    (fullSecret 1800)
    { AccessKeyID := "AK", SecretAccessKey := "SK", SessionToken := "TOK", ProviderName := "Vax" }
    rfl (by decide) (by decide) (by decide)

/-! Section: C6: short leases -/

/-- Claim C6, as stated, fails twice. With a granted lease of exactly 10
seconds, `IsExpired` at the clock reading that `Retrieve` used (5 ns) returns
false. With a granted lease of -9223372037 seconds, which does not fit a
`time.Duration`, `IsExpired` at that reading returns false as well. -/
theorem C6_counterexample :
    ((fullSecret 10).LeaseDuration ≤ 10 ∧
        (Retrieve (sampleProvider (some (fullSecret 10), none) 0) ⟨5⟩).1 =
          Outcome.returned
            { AccessKeyID := "AK", SecretAccessKey := "SK", SessionToken := "TOK",
              ProviderName := "Vax" } none ∧
        IsExpired (Retrieve (sampleProvider (some (fullSecret 10), none) 0) ⟨5⟩).2 ⟨5⟩ =
          false) ∧
      ((fullSecret (-9223372037)).LeaseDuration ≤ 10 ∧
        (Retrieve (sampleProvider (some (fullSecret (-9223372037)), none) 0) ⟨5⟩).1 =
          Outcome.returned
            { AccessKeyID := "AK", SecretAccessKey := "SK", SessionToken := "TOK",
              ProviderName := "Vax" } none ∧
        IsExpired (Retrieve (sampleProvider (some (fullSecret (-9223372037)), none) 0) ⟨5⟩).2
          ⟨5⟩ = false) := by
  decide

/-- Claim C6 (amended): for every successful `Retrieve` at clock reading `t`
that grants a lease of `L` seconds with `-9223372036 <= L <= 10`, `IsExpired`
returns true at every clock reading strictly later than `t`, and, when
`L < 10`, also at the clock reading `t` itself. -/
theorem C6_short_lease_expired (vp : VaultProvider) (t u : Time) (resp : Secret) (rv : Value)
    (hw : vp.VaultClient.Write vp.StsCredsPath [("ttl", Iface.str vp.TTL)] = (some resp, none))
    (_hok : (Retrieve vp t).1 = Outcome.returned rv none)
    (hlo : -9223372036 ≤ resp.LeaseDuration) (hhi : resp.LeaseDuration ≤ 10)
    (hu : t.nanos < u.nanos ∨ (t.nanos ≤ u.nanos ∧ resp.LeaseDuration < 10)) :
    IsExpired (Retrieve vp t).2 u = true := by
  rw [IsExpired_iff, Retrieve_expiresAt_of_lease vp t resp hw hlo (by omega)]
  show t.nanos + resp.LeaseDuration * 1000000000 - 10000000000 < u.nanos
  omega

/-- Instance of C6: lease duration 10 s granted at clock reading 5 ns,
`IsExpired` asked at 6 ns. -/
theorem C6_short_lease_expired_witness :
    IsExpired (Retrieve (sampleProvider (some (fullSecret 10), none) 0) ⟨5⟩).2 ⟨6⟩ = true :=
  C6_short_lease_expired (sampleProvider (some (fullSecret 10), none) 0) ⟨5⟩ ⟨6⟩
    (fullSecret 10)
    { AccessKeyID := "AK", SecretAccessKey := "SK", SessionToken := "TOK", ProviderName := "Vax" }
    rfl (by decide) (by decide) (by decide) (by decide)

/-! Section: C7, C8: construction -/

/-- Claim C7: for every mount and role string, a provider freshly constructed
by `NewVaultProvider` at clock reading `t0` reports `IsExpired` true at every
clock reading `u >= t0`, no `Retrieve` having been made. -/
theorem C7_fresh_provider_expired (client : Client) (t0 u : Time) (mount role : String)
    (hu : t0.nanos ≤ u.nanos) :
    IsExpired (NewVaultProvider client t0 mount role) u = true := by
  rw [IsExpired_iff]
  show t0.nanos - 10000000000 < u.nanos
  omega

/-- Instance of C7: constructed at 5 ns for "aws" and "deploy", asked at the
same reading 5 ns. -/
theorem C7_fresh_provider_expired_witness :
    (⟨5⟩ : Time).nanos ≤ (⟨5⟩ : Time).nanos ∧
      IsExpired (NewVaultProvider (fixedClient (none, none)) ⟨5⟩ "aws" "deploy") ⟨5⟩ = true :=
  ⟨by decide,
    C7_fresh_provider_expired (fixedClient (none, none)) ⟨5⟩ ⟨5⟩ "aws" "deploy" (by decide)⟩

/-- Claim C8: for every mount string `m` and role string `r`,
`NewVaultProvider` yields a provider whose `StsCredsPath` is
`m ++ "/sts/" ++ r` and whose `TTL` is "30m"; "aws" and "deploy" give
"aws/sts/deploy". -/
theorem C8_path_and_default_ttl (client : Client) (now : Time) (m r : String) :
    (NewVaultProvider client now m r).StsCredsPath = m ++ "/sts/" ++ r ∧
      (NewVaultProvider client now m r).TTL = "30m" ∧
      (NewVaultProvider client now "aws" "deploy").StsCredsPath = "aws/sts/deploy" := by
  refine ⟨rfl, rfl, ?_⟩
  show "aws" ++ "/sts/" ++ "deploy" = "aws/sts/deploy"
  decide

/-! Section: C9: the expiry after a refresh -/

/-- Claim C9, as stated, fails: a provider whose `expiresAt` is 1800 s is
refreshed at clock reading 1 s with a granted lease of 10 s; `Retrieve`
succeeds and `expiresAt` moves back to 11 s. -/
theorem C9_counterexample :
    (Retrieve (sampleProvider (some (fullSecret 10), none) 1800000000000) ⟨1000000000⟩).1 =
        Outcome.returned
          { AccessKeyID := "AK", SecretAccessKey := "SK", SessionToken := "TOK",
            ProviderName := "Vax" } none ∧
      (Retrieve (sampleProvider (some (fullSecret 10), none) 1800000000000)
          ⟨1000000000⟩).2.expiresAt.nanos = 11000000000 ∧
      (Retrieve (sampleProvider (some (fullSecret 10), none) 1800000000000)
          ⟨1000000000⟩).2.expiresAt.nanos <
        (sampleProvider (some (fullSecret 10), none) 1800000000000).expiresAt.nanos := by
  decide

/-- Claim C9 (amended): for every provider state, clock reading `now` and
successful response granting `L` seconds with
`-9223372036 <= L <= 9223372036`, a successful `Retrieve` sets `expiresAt` to
`now + L` seconds whatever its previous value; when the previous `expiresAt`
is not later than `now + L` seconds, `expiresAt` after the call is not
earlier than before. -/
theorem C9_expiresAt_overwritten (vp : VaultProvider) (now : Time) (resp : Secret) (rv : Value)
    (hw : vp.VaultClient.Write vp.StsCredsPath [("ttl", Iface.str vp.TTL)] = (some resp, none))
    (_hok : (Retrieve vp now).1 = Outcome.returned rv none)
    (hlo : -9223372036 ≤ resp.LeaseDuration) (hhi : resp.LeaseDuration ≤ 9223372036) :
    (Retrieve vp now).2.expiresAt = ⟨now.nanos + resp.LeaseDuration * Second⟩ ∧
      (vp.expiresAt.nanos ≤ now.nanos + resp.LeaseDuration * Second →
        vp.expiresAt.nanos ≤ (Retrieve vp now).2.expiresAt.nanos) := by
  have he : (Retrieve vp now).2.expiresAt = ⟨now.nanos + resp.LeaseDuration * Second⟩ := by
    rw [Retrieve_expiresAt_of_lease vp now resp hw hlo hhi]
    rfl
  refine ⟨he, ?_⟩
  intro hpre
  rw [he]
  exact hpre

/-- Instances of C9. A provider whose `expiresAt` is 1800 s, refreshed at
clock reading 1 s with a granted lease of 10 s, ends with `expiresAt` at
`1 s + 10 s`, earlier than before. A provider whose `expiresAt` is 7 ns,
refreshed at clock reading 5 ns with a granted lease of 1800 s, ends with
`expiresAt` at `5 ns + 1800 s`, not earlier than before. -/
theorem C9_expiresAt_overwritten_witness :
    ((Retrieve (sampleProvider (some (fullSecret 10), none) 1800000000000)
          ⟨1000000000⟩).2.expiresAt =
        ⟨1000000000 + (fullSecret 10).LeaseDuration * Second⟩) ∧
      ((sampleProvider (some (fullSecret 1800), none) 7).expiresAt.nanos ≤
          5 + (fullSecret 1800).LeaseDuration * Second ∧
        (Retrieve (sampleProvider (some (fullSecret 1800), none) 7) ⟨5⟩).2.expiresAt =
          ⟨5 + (fullSecret 1800).LeaseDuration * Second⟩ ∧
        (sampleProvider (some (fullSecret 1800), none) 7).expiresAt.nanos ≤
          (Retrieve (sampleProvider (some (fullSecret 1800), none) 7) ⟨5⟩).2.expiresAt.nanos) :=
  ⟨(C9_expiresAt_overwritten (sampleProvider (some (fullSecret 10), none) 1800000000000)
      ⟨1000000000⟩ (fullSecret 10)
      { AccessKeyID := "AK", SecretAccessKey := "SK", SessionToken := "TOK",
        ProviderName := "Vax" }
      rfl (by decide) (by decide) (by decide)).1,
    by decide,
    (C9_expiresAt_overwritten (sampleProvider (some (fullSecret 1800), none) 7) ⟨5⟩
      (fullSecret 1800)
      { AccessKeyID := "AK", SecretAccessKey := "SK", SessionToken := "TOK",
        ProviderName := "Vax" }
      rfl (by decide) (by decide) (by decide)).1,
    (C9_expiresAt_overwritten (sampleProvider (some (fullSecret 1800), none) 7) ⟨5⟩
      (fullSecret 1800)
      { AccessKeyID := "AK", SecretAccessKey := "SK", SessionToken := "TOK",
        ProviderName := "Vax" }
      rfl (by decide) (by decide) (by decide)).2 (by decide)⟩

/-! Section: C10: panics -/

/-- Claim C10 at two write outcomes that report no error: on the absent (nil)
response `Retrieve` panics with a nil dereference, and on a response whose
`access_key` is a number it panics in the type assertion; in neither case
does it return a credential value or an error value. -/
theorem C10_retrieve_panics :
    (Retrieve (sampleProvider (none, none) 0) ⟨5⟩).1 = Outcome.panicked Panic.nilDereference ∧
      (Retrieve (sampleProvider (some secretNumericKey, none) 0) ⟨5⟩).1 =
        Outcome.panicked (Panic.interfaceConversion (Iface.num 42)) := by
  decide

end Vax
